import Mathlib

/-!
Shallow embedding of the orientation engine in
src/src/services/sensorService.ts (class SensorService), together with
theorems checking the natural-language specification against it.

Angles and accelerations are modelled as real numbers.  Timestamps are
real numbers in milliseconds; the source stores lastTimestamp = 0 for
"no previous sample" (JavaScript falsiness of 0).  Nullable sensor
fields are modelled with Option: a motion event whose acceleration is
absent or has any null axis is modelled as none, since the source
ignores such an event entirely.
-/

namespace Leafangler

/-- A 3-component vector, used for Position, velocity, acceleration and
SurfaceNormal. -/
structure Vec3 where
  x : ℝ
  y : ℝ
  z : ℝ


/-- An angle triple: pitch, roll, yaw in degrees.  Also used for
CalibrationOffsets, which have the same three fields in the source. -/
structure Angles where
  pitch : ℝ
  roll : ℝ
  yaw : ℝ


/-- First loop of SensorService.normalizeAngle:
while (angle > 180) angle -= 360. -/
noncomputable def wrapDown (a : ℝ) : ℝ :=
  if 180 < a then wrapDown (a - 360) else a
termination_by (⌈(a - 180) / 360⌉).toNat
decreasing_by
  have h1 : (0 : ℝ) < (a - 180) / 360 := by
    apply div_pos <;> linarith
  have h2 : (0 : ℤ) < ⌈(a - 180) / 360⌉ := Int.ceil_pos.mpr h1
  have h3 : (a - 360 - 180) / 360 = (a - 180) / 360 - 1 := by ring
  have h4 : ⌈(a - 360 - 180) / 360⌉ = ⌈(a - 180) / 360⌉ - 1 := by
    rw [h3, Int.ceil_sub_one]
  omega

/-- Second loop of SensorService.normalizeAngle:
while (angle < -180) angle += 360. -/
noncomputable def wrapUp (a : ℝ) : ℝ :=
  if a < -180 then wrapUp (a + 360) else a
termination_by (⌈(-180 - a) / 360⌉).toNat
decreasing_by
  have h1 : (0 : ℝ) < (-180 - a) / 360 := by
    apply div_pos <;> linarith
  have h2 : (0 : ℤ) < ⌈(-180 - a) / 360⌉ := Int.ceil_pos.mpr h1
  have h3 : (-180 - (a + 360)) / 360 = (-180 - a) / 360 - 1 := by ring
  have h4 : ⌈(-180 - (a + 360)) / 360⌉ = ⌈(-180 - a) / 360⌉ - 1 := by
    rw [h3, Int.ceil_sub_one]
  omega

/-- SensorService.normalizeAngle: run both wrapping loops in order. -/
noncomputable def normalizeAngle (a : ℝ) : ℝ :=
  wrapUp (wrapDown a)

theorem wrapDown_le (a : ℝ) : wrapDown a ≤ 180 := by
  rw [wrapDown]
  split
  case isTrue h =>
    exact wrapDown_le (a - 360)
  case isFalse h =>
    linarith
termination_by (⌈(a - 180) / 360⌉).toNat
decreasing_by
  have h1 : (0 : ℝ) < (a - 180) / 360 := by
    apply div_pos <;> linarith
  have h2 : (0 : ℤ) < ⌈(a - 180) / 360⌉ := Int.ceil_pos.mpr h1
  have h3 : (a - 360 - 180) / 360 = (a - 180) / 360 - 1 := by ring
  have h4 : ⌈(a - 360 - 180) / 360⌉ = ⌈(a - 180) / 360⌉ - 1 := by
    rw [h3, Int.ceil_sub_one]
  omega

theorem wrapUp_ge (a : ℝ) : -180 ≤ wrapUp a := by
  rw [wrapUp]
  split
  case isTrue h =>
    exact wrapUp_ge (a + 360)
  case isFalse h =>
    linarith
termination_by (⌈(-180 - a) / 360⌉).toNat
decreasing_by
  have h1 : (0 : ℝ) < (-180 - a) / 360 := by
    apply div_pos <;> linarith
  have h2 : (0 : ℤ) < ⌈(-180 - a) / 360⌉ := Int.ceil_pos.mpr h1
  have h3 : (-180 - (a + 360)) / 360 = (-180 - a) / 360 - 1 := by
    ring
  have h4 : ⌈(-180 - (a + 360)) / 360⌉ = ⌈(-180 - a) / 360⌉ - 1 := by
    rw [h3, Int.ceil_sub_one]
  omega

theorem wrapUp_le (a : ℝ) (h : a ≤ 180) : wrapUp a ≤ 180 := by
  rw [wrapUp]
  split
  case isTrue h2 =>
    exact wrapUp_le (a + 360) (by linarith)
  case isFalse h2 =>
    exact h
termination_by (⌈(-180 - a) / 360⌉).toNat
decreasing_by
  have h1 : (0 : ℝ) < (-180 - a) / 360 := by
    apply div_pos <;> linarith
  have h2 : (0 : ℤ) < ⌈(-180 - a) / 360⌉ := Int.ceil_pos.mpr h1
  have h3 : (-180 - (a + 360)) / 360 = (-180 - a) / 360 - 1 := by
    ring
  have h4 : ⌈(-180 - (a + 360)) / 360⌉ = ⌈(-180 - a) / 360⌉ - 1 := by
    rw [h3, Int.ceil_sub_one]
  omega

theorem normalizeAngle_mem (a : ℝ) :
    -180 ≤ normalizeAngle a ∧ normalizeAngle a ≤ 180 :=
  ⟨wrapUp_ge (wrapDown a), wrapUp_le (wrapDown a) (wrapDown_le a)⟩

theorem wrapDown_of_le {a : ℝ} (h : a ≤ 180) : wrapDown a = a := by
  rw [wrapDown]
  simp [not_lt.mpr h]

theorem wrapUp_of_ge {a : ℝ} (h : -180 ≤ a) : wrapUp a = a := by
  rw [wrapUp]
  simp [not_lt.mpr h]

theorem normalizeAngle_of_mem {a : ℝ} (h1 : -180 ≤ a) (h2 : a ≤ 180) :
    normalizeAngle a = a := by
  rw [normalizeAngle, wrapDown_of_le h2, wrapUp_of_ge h1]

theorem normalizeAngle_zero : normalizeAngle 0 = 0 :=
  normalizeAngle_of_mem (by norm_num) (by norm_num)

theorem normalizeAngle_neg_180 : normalizeAngle (-180) = -180 :=
  normalizeAngle_of_mem (by norm_num) (by norm_num)

/-- The mutable fields of a SensorService instance that the engine
logic reads or writes (GPS fields and the subscriber sets are omitted:
subscribers are modelled by the event list an operation emits). -/
structure SensorState where
  angles : Angles
  position : Vec3
  calibrationOffsets : Angles
  rawAngles : Angles
  velocity : Vec3
  lastAcceleration : Vec3
  lastTimestamp : ℝ
  isListening : Bool
  permissionsGranted : Bool

/-- A value pushed to subscribers: notifySubscribers sends the current
angles, notifyPositionSubscribers sends the current position. -/
inductive Event where
  | anglesEv (a : Angles) : Event
  | positionEv (p : Vec3) : Event

/-- SensorService.updateAngles: recompute the published angles from
rawAngles and calibrationOffsets and notify the angle subscribers. -/
noncomputable def updateAngles (s : SensorState) : SensorState × List Event :=
  let newAngles : Angles :=
    { pitch := normalizeAngle (s.rawAngles.pitch - s.calibrationOffsets.pitch)
      roll := normalizeAngle (s.rawAngles.roll - s.calibrationOffsets.roll)
      yaw := normalizeAngle (s.rawAngles.yaw - s.calibrationOffsets.yaw) }
  ({ s with angles := newAngles }, [Event.anglesEv newAngles])

/-- SensorService.setCalibrationOffsets. -/
noncomputable def setCalibrationOffsets (s : SensorState) (offsets : Angles) :
    SensorState × List Event :=
  updateAngles { s with calibrationOffsets := offsets }

/-- SensorService.calibrate: capture rawAngles as the offsets, update
the angles, then reset position, velocity and lastAcceleration. -/
noncomputable def calibrate (s : SensorState) : SensorState × List Event :=
  let r := updateAngles { s with calibrationOffsets := s.rawAngles }
  ({ r.1 with
      position := { x := 0, y := 0, z := 0 }
      velocity := { x := 0, y := 0, z := 0 }
      lastAcceleration := { x := 0, y := 0, z := 0 } }, r.2)

/-- SensorService.handleDeviceOrientation: an event with any null axis
(modelled as none) is ignored; otherwise store the raw triple and
update the angles. -/
noncomputable def handleDeviceOrientation (s : SensorState) (raw : Option Angles) :
    SensorState × List Event :=
  match raw with
  | some r => updateAngles { s with rawAngles := r }
  | none => (s, [])

/-- SensorService.handleDeviceMotion: an event with absent acceleration
or any null axis (modelled as none) is ignored; otherwise integrate when
the inter-arrival gap dt = (t - lastTimestamp)/1000 seconds is in (0, 1)
(with dt forced to 0 when lastTimestamp is 0, i.e. no previous sample),
and always store the arrival time t. -/
noncomputable def handleDeviceMotion (s : SensorState) (acc : Option Vec3) (t : ℝ) :
    SensorState × List Event :=
  match acc with
  | none => (s, [])
  | some a =>
    let dt : ℝ := if s.lastTimestamp ≠ 0 then (t - s.lastTimestamp) / 1000 else 0
    if 0 < dt ∧ dt < 1 then
      let filtered : Vec3 :=
        { x := 0.8 * (a.x - s.lastAcceleration.x)
          y := 0.8 * (a.y - s.lastAcceleration.y)
          z := 0.8 * (a.z - s.lastAcceleration.z) }
      let v2 : Vec3 :=
        { x := (s.velocity.x + filtered.x * dt) * 0.98
          y := (s.velocity.y + filtered.y * dt) * 0.98
          z := (s.velocity.z + filtered.z * dt) * 0.98 }
      let pos : Vec3 :=
        { x := s.position.x + v2.x * dt
          y := s.position.y + v2.y * dt
          z := s.position.z + v2.z * dt }
      ({ s with
          velocity := v2
          position := pos
          lastAcceleration := a
          lastTimestamp := t }, [Event.positionEv pos])
    else
      ({ s with lastTimestamp := t }, [])

/-- The pre-normalization vector built inside
SensorService.calculateSurfaceNormal (lines 90-94): the image of the
local +Z axis under the ZYX Euler rotation, with degree inputs
converted to radians. -/
noncomputable def preNormal (a : Angles) : Vec3 :=
  let pitchRad := a.pitch * Real.pi / 180
  let rollRad := a.roll * Real.pi / 180
  let yawRad := a.yaw * Real.pi / 180
  let cp := Real.cos pitchRad
  let sp := Real.sin pitchRad
  let cr := Real.cos rollRad
  let sr := Real.sin rollRad
  let cy := Real.cos yawRad
  let sy := Real.sin yawRad
  { x := sp * cy + cp * sr * sy
    y := sp * sy - cp * sr * cy
    z := cp * cr }

/-- Math.sqrt(x ** 2 + y ** 2 + z ** 2): the magnitude computed at
line 97 of the source. -/
noncomputable def vecMag (v : Vec3) : ℝ :=
  Real.sqrt (v.x ^ 2 + v.y ^ 2 + v.z ^ 2)

/-- The normalization step of calculateSurfaceNormal (lines 97-102):
divide each component by the magnitude when it is positive, otherwise
return the vector unchanged. -/
noncomputable def normalizeVec (v : Vec3) : Vec3 :=
  let magnitude := vecMag v
  if 0 < magnitude then
    { x := v.x / magnitude, y := v.y / magnitude, z := v.z / magnitude }
  else
    v

/-- SensorService.calculateSurfaceNormal. -/
noncomputable def calculateSurfaceNormal (a : Angles) : Vec3 :=
  normalizeVec (preNormal a)

/-- Zenith and azimuth in degrees, rounded to 2 decimals.  The zenith
is an Option: none models the NaN that Math.acos returns when its
argument lies outside [-1, 1] (Math.round and division by 100 both
propagate the NaN). -/
structure LeafOrientation where
  zenith : Option ℝ
  azimuth : ℝ

/-- JavaScript Math.atan2(y, x) on real arguments. -/
noncomputable def atan2 (y x : ℝ) : ℝ :=
  if 0 < x then Real.arctan (y / x)
  else if x < 0 then
    if 0 ≤ y then Real.arctan (y / x) + Real.pi
    else Real.arctan (y / x) - Real.pi
  else
    if 0 < y then Real.pi / 2
    else if y < 0 then -(Real.pi / 2)
    else 0

/-- JavaScript Math.round on a real argument: round half toward
positive infinity. -/
noncomputable def jsRound (v : ℝ) : ℤ :=
  ⌊v + 1 / 2⌋

/-- Math.round(v * 100) / 100: round to 2 decimal places as the source
does at lines 123-124. -/
noncomputable def round2 (v : ℝ) : ℝ :=
  (jsRound (v * 100) : ℝ) / 100

/-- JavaScript Math.acos: the principal arc cosine on [-1, 1], NaN
(modelled as none) outside it. -/
noncomputable def jsAcos (x : ℝ) : Option ℝ :=
  if -1 ≤ x ∧ x ≤ 1 then some (Real.arccos x) else none

/-- The zenith in degrees before rounding (line 111 of the source):
Math.acos(Math.abs(z)) scaled to degrees; NaN (none) when |z| > 1. -/
noncomputable def zenithDeg (n : Vec3) : Option ℝ :=
  (jsAcos |n.z|).map (fun v => v * (180 / Real.pi))

/-- The azimuth in degrees before rounding (lines 115-120 of the
source): atan2 of (x, y) in degrees, plus 360 if negative. -/
noncomputable def azimuthDeg (n : Vec3) : ℝ :=
  let az := atan2 n.x n.y * (180 / Real.pi)
  if az < 0 then az + 360 else az

/-- SensorService.calculateLeafOrientation.  A NaN zenith stays NaN
through Math.round(v * 100) / 100. -/
noncomputable def calculateLeafOrientation (n : Vec3) : LeafOrientation :=
  { zenith := (zenithDeg n).map round2, azimuth := round2 (azimuthDeg n) }

/-- The platform facts that requestPermissions and startListening
consult: whether DeviceOrientationEvent.requestPermission exists (iOS
13+), and what the two permission prompts answer. -/
structure PermissionEnv where
  needsPermissionRequest : Bool
  orientationGranted : Bool
  motionGranted : Bool

/-- The observable outcome of an async method returning Promise of
void: the promise either resolves (with undefined) or rejects. -/
inductive PromiseResult where
  | resolved : PromiseResult
  | rejected : PromiseResult

/-- SensorService.requestPermissions: when the platform exposes
requestPermission and either prompt is not granted, log and resolve
with false; otherwise mark permissionsGranted and resolve with true.
GPS errors are swallowed (the promise always resolves). -/
def requestPermissions (s : SensorState) (env : PermissionEnv) :
    SensorState × Bool :=
  if env.needsPermissionRequest &&
      !(env.orientationGranted && env.motionGranted) then
    (s, false)
  else
    ({ s with permissionsGranted := true }, true)

/-- SensorService.startListening: no-op when already listening; when
permissions are not yet granted, request them, and on denial on a
gated platform log and return (the promise still resolves); otherwise
attach the listeners and set isListening. -/
def startListening (s : SensorState) (env : PermissionEnv) :
    SensorState × PromiseResult :=
  if s.isListening then (s, PromiseResult.resolved)
  else if s.permissionsGranted then
    ({ s with isListening := true }, PromiseResult.resolved)
  else
    let r := requestPermissions s env
    if !r.2 && env.needsPermissionRequest then (r.1, PromiseResult.resolved)
    else ({ r.1 with isListening := true }, PromiseResult.resolved)

/-- Fuel-indexed run of the first normalizeAngle loop: none means the
loop has not finished within the given number of iterations. -/
noncomputable def wrapDownFuel : ℕ → ℝ → Option ℝ
  | 0, a => if 180 < a then none else some a
  | n + 1, a => if 180 < a then wrapDownFuel n (a - 360) else some a

/-- Fuel-indexed run of the second normalizeAngle loop. -/
noncomputable def wrapUpFuel : ℕ → ℝ → Option ℝ
  | 0, a => if a < -180 then none else some a
  | n + 1, a => if a < -180 then wrapUpFuel n (a + 360) else some a

/-- A JavaScript number as the normalizeAngle loop distinguishes them:
an ordinary (finite) value, one of the two infinities, or NaN. -/
inductive JSNumber where
  | num (r : ℝ) : JSNumber
  | posInf : JSNumber
  | negInf : JSNumber
  | nan : JSNumber

/-- The loop guard angle > 180 under JavaScript comparison semantics:
true for +Infinity, false for -Infinity and NaN. -/
def JSNumber.gtOneEighty : JSNumber → Prop
  | num r => 180 < r
  | posInf => True
  | negInf => False
  | nan => False

/-- The loop body angle -= 360 under JavaScript arithmetic:
Infinity - 360 = Infinity, NaN - 360 = NaN. -/
def JSNumber.subThreeSixty : JSNumber → JSNumber
  | num r => num (r - 360)
  | posInf => posInf
  | negInf => negInf
  | nan => nan

noncomputable instance (a : JSNumber) : Decidable a.gtOneEighty :=
  Classical.propDecidable _

/-- Fuel-indexed run of the first normalizeAngle loop on JavaScript
numbers. -/
noncomputable def wrapDownFuelJS : ℕ → JSNumber → Option JSNumber
  | 0, a => if a.gtOneEighty then none else some a
  | n + 1, a => if a.gtOneEighty then wrapDownFuelJS n a.subThreeSixty else some a

/-- The second loop guard angle < -180 under JavaScript comparison
semantics: true for -Infinity, false for +Infinity and NaN. -/
def JSNumber.ltNegOneEighty : JSNumber → Prop
  | num r => r < -180
  | posInf => False
  | negInf => True
  | nan => False

/-- The second loop body angle += 360 under JavaScript arithmetic:
Infinity + 360 = Infinity, NaN + 360 = NaN. -/
def JSNumber.addThreeSixty : JSNumber → JSNumber
  | num r => num (r + 360)
  | posInf => posInf
  | negInf => negInf
  | nan => nan

noncomputable instance (a : JSNumber) : Decidable a.ltNegOneEighty :=
  Classical.propDecidable _

/-- Fuel-indexed run of the second normalizeAngle loop on JavaScript
numbers. -/
noncomputable def wrapUpFuelJS : ℕ → JSNumber → Option JSNumber
  | 0, a => if a.ltNegOneEighty then none else some a
  | n + 1, a => if a.ltNegOneEighty then wrapUpFuelJS n a.addThreeSixty else some a

/-- The field initializers of a freshly constructed SensorService. -/
def initialState : SensorState :=
  { angles := { pitch := 0, roll := 0, yaw := 0 }
    position := { x := 0, y := 0, z := 0 }
    calibrationOffsets := { pitch := 0, roll := 0, yaw := 0 }
    rawAngles := { pitch := 0, roll := 0, yaw := 0 }
    velocity := { x := 0, y := 0, z := 0 }
    lastAcceleration := { x := 0, y := 0, z := 0 }
    lastTimestamp := 0
    isListening := false
    permissionsGranted := false }

/-- C1, amended: for every engine state (hence every raw angle triple
and every calibration offsets triple), each axis of the Angles
published by updateAngles lies in the closed interval
[-180, 180]. -/
theorem updateAngles_range (s : SensorState) :
    -180 ≤ (updateAngles s).1.angles.pitch ∧ (updateAngles s).1.angles.pitch ≤ 180 ∧
    -180 ≤ (updateAngles s).1.angles.roll ∧ (updateAngles s).1.angles.roll ≤ 180 ∧
    -180 ≤ (updateAngles s).1.angles.yaw ∧ (updateAngles s).1.angles.yaw ≤ 180 :=
  ⟨(normalizeAngle_mem _).1, (normalizeAngle_mem _).2,
    (normalizeAngle_mem _).1, (normalizeAngle_mem _).2,
    (normalizeAngle_mem _).1, (normalizeAngle_mem _).2⟩

/-- C1, counterexample: with raw pitch -180 and zero offsets the
published pitch equals -180 exactly, so it is not strictly greater
than -180 as the claim states. -/
theorem updateAngles_pitch_neg180 :
    ¬ (-180 <
      (updateAngles
        { initialState with
          rawAngles := { pitch := -180, roll := 0, yaw := 0 } }).1.angles.pitch) := by
  have h : (updateAngles
      { initialState with
        rawAngles := { pitch := -180, roll := 0, yaw := 0 } }).1.angles.pitch
      = normalizeAngle (-180 - 0) := rfl
  rw [h]
  norm_num [normalizeAngle_neg_180]

/-- C2: calibrate captures the current raw triple as the offsets,
publishes Angles (0,0,0), resets position, velocity and
lastAcceleration to zero, and a following orientation sample equal to
the captured triple again publishes Angles (0,0,0). -/
theorem calibrate_spec (s : SensorState) :
    (calibrate s).1.angles = { pitch := 0, roll := 0, yaw := 0 } ∧
    (calibrate s).2 = [Event.anglesEv { pitch := 0, roll := 0, yaw := 0 }] ∧
    (calibrate s).1.calibrationOffsets = s.rawAngles ∧
    (calibrate s).1.position = { x := 0, y := 0, z := 0 } ∧
    (calibrate s).1.velocity = { x := 0, y := 0, z := 0 } ∧
    (calibrate s).1.lastAcceleration = { x := 0, y := 0, z := 0 } ∧
    (handleDeviceOrientation (calibrate s).1 (some s.rawAngles)).1.angles
      = { pitch := 0, roll := 0, yaw := 0 } := by
  refine ⟨?_, ?_, rfl, rfl, rfl, rfl, ?_⟩ <;>
    simp [calibrate, updateAngles, handleDeviceOrientation, sub_self,
      normalizeAngle_zero]

/-- C8: setCalibrationOffsets assigns the offsets and recomputes and
republishes the angles while leaving position, velocity,
lastAcceleration and lastTimestamp unchanged; calibrate resets the
position to the origin; the orientation handler never changes the
position; and the motion handler either leaves the position unchanged
or adds velocity times dt to it (it never assigns the origin). -/
theorem setCalibrationOffsets_frame (s : SensorState) (offsets : Angles)
    (raw : Option Angles) (acc : Option Vec3) (t : ℝ) :
    (setCalibrationOffsets s offsets).1.position = s.position ∧
    (setCalibrationOffsets s offsets).1.velocity = s.velocity ∧
    (setCalibrationOffsets s offsets).1.lastAcceleration = s.lastAcceleration ∧
    (setCalibrationOffsets s offsets).1.lastTimestamp = s.lastTimestamp ∧
    (setCalibrationOffsets s offsets).1.calibrationOffsets = offsets ∧
    (setCalibrationOffsets s offsets).1.angles =
      { pitch := normalizeAngle (s.rawAngles.pitch - offsets.pitch)
        roll := normalizeAngle (s.rawAngles.roll - offsets.roll)
        yaw := normalizeAngle (s.rawAngles.yaw - offsets.yaw) } ∧
    (setCalibrationOffsets s offsets).2 =
      [Event.anglesEv (setCalibrationOffsets s offsets).1.angles] ∧
    (calibrate s).1.position = { x := 0, y := 0, z := 0 } ∧
    (handleDeviceOrientation s raw).1.position = s.position ∧
    ((handleDeviceMotion s acc t).1.position = s.position ∨
      (handleDeviceMotion s acc t).1.position =
        { x := s.position.x +
            (handleDeviceMotion s acc t).1.velocity.x * ((t - s.lastTimestamp) / 1000)
          y := s.position.y +
            (handleDeviceMotion s acc t).1.velocity.y * ((t - s.lastTimestamp) / 1000)
          z := s.position.z +
            (handleDeviceMotion s acc t).1.velocity.z * ((t - s.lastTimestamp) / 1000) }) := by
  refine ⟨rfl, rfl, rfl, rfl, rfl, rfl, rfl, rfl, ?_, ?_⟩
  · cases raw with
    | none => rfl
    | some r => rfl
  · cases acc with
    | none => exact Or.inl rfl
    | some a =>
      by_cases hlt : s.lastTimestamp = 0
      · left
        simp [handleDeviceMotion, hlt]
      · rw [handleDeviceMotion]
        simp only [hlt, ne_eq, not_false_eq_true, if_true]
        by_cases hdt : 0 < (t - s.lastTimestamp) / 1000 ∧ (t - s.lastTimestamp) / 1000 < 1
        · right
          simp [hdt]
        · left
          rw [if_neg hdt]

/-- A state with a previous motion sample at time 1000 ms and nonzero
motion state, used to instantiate hypotheses at concrete inputs. -/
noncomputable def sampleState : SensorState :=
  { initialState with
    position := { x := 10, y := 20, z := 30 }
    velocity := { x := 1, y := 2, z := 3 }
    lastAcceleration := { x := 0.5, y := 0.5, z := 0.5 }
    lastTimestamp := 1000 }

/-- C3: a motion sample with all axes present arriving at time t with
dt = (t - lastTimestamp)/1000 in (0, 1) updates velocity to
(velocity + 0.8 (raw - lastAcceleration) dt) 0.98 per axis, adds the
new velocity times dt to the position, stores the raw values in
lastAcceleration, stores t, and publishes the new position; a sample
whose dt falls outside (0, 1), or one arriving when lastTimestamp is
unset, only stores its arrival time and publishes nothing. -/
theorem handleDeviceMotion_spec (s : SensorState) (a : Vec3) (t tSkip tFirst : ℝ)
    (hlt : ¬s.lastTimestamp = 0)
    (h0 : 0 < (t - s.lastTimestamp) / 1000)
    (h1 : (t - s.lastTimestamp) / 1000 < 1)
    (hskip : ¬(0 < (tSkip - s.lastTimestamp) / 1000 ∧
      (tSkip - s.lastTimestamp) / 1000 < 1)) :
    (handleDeviceMotion s (some a) t).1.velocity =
      { x := (s.velocity.x +
          0.8 * (a.x - s.lastAcceleration.x) * ((t - s.lastTimestamp) / 1000)) * 0.98
        y := (s.velocity.y +
          0.8 * (a.y - s.lastAcceleration.y) * ((t - s.lastTimestamp) / 1000)) * 0.98
        z := (s.velocity.z +
          0.8 * (a.z - s.lastAcceleration.z) * ((t - s.lastTimestamp) / 1000)) * 0.98 } ∧
    (handleDeviceMotion s (some a) t).1.position =
      { x := s.position.x +
          (handleDeviceMotion s (some a) t).1.velocity.x * ((t - s.lastTimestamp) / 1000)
        y := s.position.y +
          (handleDeviceMotion s (some a) t).1.velocity.y * ((t - s.lastTimestamp) / 1000)
        z := s.position.z +
          (handleDeviceMotion s (some a) t).1.velocity.z * ((t - s.lastTimestamp) / 1000) } ∧
    (handleDeviceMotion s (some a) t).1.lastAcceleration = a ∧
    (handleDeviceMotion s (some a) t).1.lastTimestamp = t ∧
    (handleDeviceMotion s (some a) t).2 =
      [Event.positionEv (handleDeviceMotion s (some a) t).1.position] ∧
    handleDeviceMotion s (some a) tSkip = ({ s with lastTimestamp := tSkip }, []) ∧
    handleDeviceMotion { s with lastTimestamp := 0 } (some a) tFirst =
      ({ s with lastTimestamp := tFirst }, []) := by
  have hcond : 0 < (t - s.lastTimestamp) / 1000 ∧
      (t - s.lastTimestamp) / 1000 < 1 := ⟨h0, h1⟩
  simp only [handleDeviceMotion, ne_eq, hlt, not_false_eq_true, if_true,
    if_pos hcond, if_neg hskip]
  norm_num

/-- C3 witness at the concrete state sampleState with raw acceleration
(2, 2, 2) arriving at 1500 ms (dt = 0.5 s), a skipped sample at
3000 ms (dt = 2 s) and a first-ever sample at 7 ms. -/
theorem handleDeviceMotion_spec_witness :
    (handleDeviceMotion sampleState (some { x := 2, y := 2, z := 2 }) 1500).1.lastTimestamp
      = 1500 := by
  have h := handleDeviceMotion_spec sampleState { x := 2, y := 2, z := 2 } 1500 3000 7
    (by norm_num [sampleState, initialState])
    (by norm_num [sampleState, initialState])
    (by norm_num [sampleState, initialState])
    (by norm_num [sampleState, initialState])
  exact h.2.2.2.1

/-- A run of motion samples that are all exactly (0,0,0), arriving at
the given times in order. -/
noncomputable def processZeroSamples (s : SensorState) (ts : List ℝ) : SensorState :=
  ts.foldl (fun s t => (handleDeviceMotion s (some { x := 0, y := 0, z := 0 }) t).1) s

/-- All inter-arrival gaps of the timestamp list, measured from the
given last timestamp, are in (0, 1) seconds. -/
def validGaps : ℝ → List ℝ → Prop
  | _, [] => True
  | last, t :: ts => (0 < (t - last) / 1000 ∧ (t - last) / 1000 < 1) ∧ validGaps t ts

theorem processZeroSamples_invariant (ts : List ℝ) (s : SensorState)
    (hv : s.velocity = { x := 0, y := 0, z := 0 })
    (ha : s.lastAcceleration = { x := 0, y := 0, z := 0 }) :
    (processZeroSamples s ts).position = s.position ∧
    (processZeroSamples s ts).velocity = { x := 0, y := 0, z := 0 } ∧
    (processZeroSamples s ts).lastAcceleration = { x := 0, y := 0, z := 0 } := by
  induction ts generalizing s with
  | nil => exact ⟨rfl, hv, ha⟩
  | cons t ts ih =>
    have hstep :
        (handleDeviceMotion s (some { x := 0, y := 0, z := 0 }) t).1.position
          = s.position ∧
        (handleDeviceMotion s (some { x := 0, y := 0, z := 0 }) t).1.velocity
          = { x := 0, y := 0, z := 0 } ∧
        (handleDeviceMotion s (some { x := 0, y := 0, z := 0 }) t).1.lastAcceleration
          = { x := 0, y := 0, z := 0 } := by
      rw [handleDeviceMotion]
      split_ifs <;> simp [hv, ha]
    have hrw : processZeroSamples s (t :: ts) =
        processZeroSamples
          (handleDeviceMotion s (some { x := 0, y := 0, z := 0 }) t).1 ts := rfl
    rw [hrw]
    have ih2 := ih _ hstep.2.1 hstep.2.2
    exact ⟨ih2.1.trans hstep.1, ih2.2.1, ih2.2.2⟩

/-- C7, amended: from every engine state in which both lastAcceleration
and velocity are (0,0,0) (as after calibrate), processing any sequence
of all-zero acceleration samples whose inter-arrival gaps are in (0,1)
seconds leaves the position unchanged after every sample. -/
theorem processZeroSamples_position_eq (s : SensorState) (ts : List ℝ)
    (ha : s.lastAcceleration = { x := 0, y := 0, z := 0 })
    (hv : s.velocity = { x := 0, y := 0, z := 0 })
    (hg : validGaps s.lastTimestamp ts) :
    (processZeroSamples s ts).position = s.position :=
  (processZeroSamples_invariant ts s hv ha).1

/-- A resting state at position (5, 6, 7) with a previous sample at
1000 ms and zero velocity and lastAcceleration. -/
noncomputable def restState : SensorState :=
  { initialState with
    position := { x := 5, y := 6, z := 7 }
    lastTimestamp := 1000 }

/-- C7 witness: two zero samples, at 1500 ms and 2000 ms, after a last
sample at 1000 ms, leave the position (5, 6, 7) unchanged. -/
theorem processZeroSamples_position_eq_witness :
    (processZeroSamples restState [1500, 2000]).position = restState.position := by
  apply processZeroSamples_position_eq
  · rfl
  · rfl
  · refine ⟨⟨?_, ?_⟩, ⟨?_, ?_⟩, trivial⟩ <;> norm_num [restState, initialState]

/-- A state with zero lastAcceleration but nonzero velocity: the claim
C7 quantifies over every state with lastAcceleration = (0,0,0), and
this one defeats it. -/
noncomputable def driftState : SensorState :=
  { initialState with velocity := { x := 1, y := 0, z := 0 }, lastTimestamp := 1000 }

/-- C7 counterexample: driftState has lastAcceleration (0,0,0) and the
single zero sample at 1500 ms has its gap in (0,1), yet the position
changes: the damped velocity 0.98 moves x by 0.49. -/
theorem processZeroSamples_moves :
    driftState.lastAcceleration = { x := 0, y := 0, z := 0 } ∧
    validGaps driftState.lastTimestamp [1500] ∧
    (processZeroSamples driftState [1500]).position ≠ driftState.position := by
  refine ⟨rfl, ⟨⟨by norm_num [driftState, initialState], by
    norm_num [driftState, initialState]⟩, trivial⟩, ?_⟩
  intro h
  have hx := congrArg Vec3.x h
  have hval : (processZeroSamples driftState [1500]).position.x = 0.49 := by
    norm_num [processZeroSamples, handleDeviceMotion, driftState, initialState]
  rw [hval] at hx
  norm_num [driftState, initialState] at hx

theorem preNormal_sq_sum (a : Angles) :
    (preNormal a).x ^ 2 + (preNormal a).y ^ 2 + (preNormal a).z ^ 2 = 1 := by
  have hy := Real.sin_sq_add_cos_sq (a.yaw * Real.pi / 180)
  have hr := Real.sin_sq_add_cos_sq (a.roll * Real.pi / 180)
  have hp := Real.sin_sq_add_cos_sq (a.pitch * Real.pi / 180)
  simp only [preNormal]
  linear_combination
    (Real.sin (a.pitch * Real.pi / 180) ^ 2 +
      Real.cos (a.pitch * Real.pi / 180) ^ 2 *
        Real.sin (a.roll * Real.pi / 180) ^ 2) * hy +
    Real.cos (a.pitch * Real.pi / 180) ^ 2 * hr + hp

theorem preNormal_mag_one (a : Angles) : vecMag (preNormal a) = 1 := by
  rw [vecMag, preNormal_sq_sum, Real.sqrt_one]

theorem calculateSurfaceNormal_eq_preNormal (a : Angles) :
    calculateSurfaceNormal a = preNormal a := by
  rw [calculateSurfaceNormal, normalizeVec]
  norm_num [preNormal_mag_one]

/-- C9: in exact real arithmetic the pre-normalization vector inside
calculateSurfaceNormal has magnitude exactly 1, so the magnitude > 0
guard always succeeds, the unnormalized branch is unreachable, and
every returned SurfaceNormal has unit norm. -/
theorem calculateSurfaceNormal_unit (a : Angles) :
    vecMag (preNormal a) = 1 ∧ 0 < vecMag (preNormal a) ∧
    vecMag (calculateSurfaceNormal a) = 1 := by
  refine ⟨preNormal_mag_one a, ?_, ?_⟩
  · rw [preNormal_mag_one a]
    norm_num
  · rw [calculateSurfaceNormal_eq_preNormal a, preNormal_mag_one a]

/-- C4: calculateSurfaceNormal builds the ZYX rotation image of +Z and
divides each component by the magnitude whenever it is positive, giving
a unit vector; a vector of magnitude exactly 0 is left unnormalized and
is necessarily (0,0,0); and for pitch = 0 and roll = 0 the result is
(0,0,1) whatever the yaw. -/
theorem calculateSurfaceNormal_spec (a b : Angles) (v : Vec3)
    (ha : 0 < vecMag (preNormal a)) (hv : vecMag v = 0)
    (hb1 : b.pitch = 0) (hb2 : b.roll = 0) :
    calculateSurfaceNormal a =
      { x := (preNormal a).x / vecMag (preNormal a)
        y := (preNormal a).y / vecMag (preNormal a)
        z := (preNormal a).z / vecMag (preNormal a) } ∧
    vecMag (calculateSurfaceNormal a) = 1 ∧
    normalizeVec v = v ∧ v = { x := 0, y := 0, z := 0 } ∧
    calculateSurfaceNormal b = { x := 0, y := 0, z := 1 } := by
  have hv0 : v = { x := 0, y := 0, z := 0 } := by
    have hsum : v.x ^ 2 + v.y ^ 2 + v.z ^ 2 = 0 := by
      have hnn : 0 ≤ v.x ^ 2 + v.y ^ 2 + v.z ^ 2 := by positivity
      have := (Real.sqrt_eq_zero hnn).mp hv
      exact this
    obtain ⟨vx, vy, vz⟩ := v
    simp only [Vec3.mk.injEq]
    refine ⟨?_, ?_, ?_⟩ <;>
      nlinarith [sq_nonneg vx, sq_nonneg vy, sq_nonneg vz, hsum]
  refine ⟨?_, ?_, ?_, hv0, ?_⟩
  · rw [calculateSurfaceNormal, normalizeVec]
    simp only [if_pos ha]
  · rw [calculateSurfaceNormal_eq_preNormal a, preNormal_mag_one a]
  · rw [normalizeVec]
    simp [hv]
  · have hpre : preNormal b = { x := 0, y := 0, z := 1 } := by
      simp [preNormal, hb1, hb2]
    rw [calculateSurfaceNormal_eq_preNormal b, hpre]

/-- C4 witness at angles (30, 40, 50), flat angles (0, 0, 123) and the
zero vector. -/
theorem calculateSurfaceNormal_spec_witness :
    calculateSurfaceNormal { pitch := 0, roll := 0, yaw := 123 }
      = { x := 0, y := 0, z := 1 } := by
  have h := calculateSurfaceNormal_spec
    { pitch := 30, roll := 40, yaw := 50 }
    { pitch := 0, roll := 0, yaw := 123 }
    { x := 0, y := 0, z := 0 }
    (by rw [preNormal_mag_one]; norm_num)
    (by norm_num [vecMag, Real.sqrt_zero])
    rfl rfl
  exact h.2.2.2.2

/-- C6 counterexample: starting from the freshly constructed state on a
platform that requires the permission grant, with both prompts denied,
startListening resolves normally (it is not a rejection the caller can
observe) and leaves the engine not listening: a silent no-op, contrary
to the claim. -/
theorem startListening_denied_silent :
    startListening initialState
        { needsPermissionRequest := true
          orientationGranted := false
          motionGranted := false }
      = (initialState, PromiseResult.resolved) ∧
    (startListening initialState
        { needsPermissionRequest := true
          orientationGranted := false
          motionGranted := false }).2 ≠ PromiseResult.rejected ∧
    (startListening initialState
        { needsPermissionRequest := true
          orientationGranted := false
          motionGranted := false }).1.isListening = false := by
  refine ⟨rfl, ?_, rfl⟩
  intro h
  exact PromiseResult.noConfusion h

/-- C6, amended: calling startListening without a granted capability on
a platform that requires the grant is a silent no-op: the returned
promise resolves normally (never rejects), no listener is attached and
the state is unchanged; the failure is only logged, not surfaced to the
caller. -/
theorem startListening_denied (s : SensorState) (env : PermissionEnv)
    (h1 : s.isListening = false) (h2 : s.permissionsGranted = false)
    (h3 : env.needsPermissionRequest = true)
    (h4 : (env.orientationGranted && env.motionGranted) = false) :
    startListening s env = (s, PromiseResult.resolved) := by
  rw [startListening]
  simp [h1, h2, h3, h4, requestPermissions]

/-- C6 witness on a gated platform where the orientation prompt is
granted but the motion prompt is denied. -/
theorem startListening_denied_witness :
    startListening initialState
        { needsPermissionRequest := true
          orientationGranted := true
          motionGranted := false }
      = (initialState, PromiseResult.resolved) :=
  startListening_denied initialState
    { needsPermissionRequest := true
      orientationGranted := true
      motionGranted := false } rfl rfl rfl rfl

theorem wrapDownFuel_exists (a : ℝ) :
    ∃ n, wrapDownFuel n a = some (wrapDown a) := by
  by_cases h : 180 < a
  · obtain ⟨n, hn⟩ := wrapDownFuel_exists (a - 360)
    refine ⟨n + 1, ?_⟩
    have hw : wrapDown a = wrapDown (a - 360) := by
      conv_lhs => rw [wrapDown]
      rw [if_pos h]
    rw [wrapDownFuel, if_pos h, hn, hw]
  · refine ⟨0, ?_⟩
    rw [wrapDownFuel, if_neg h, wrapDown_of_le (le_of_not_lt h)]
termination_by (⌈(a - 180) / 360⌉).toNat
decreasing_by
  have h1 : (0 : ℝ) < (a - 180) / 360 := by
    apply div_pos <;> linarith
  have h2 : (0 : ℤ) < ⌈(a - 180) / 360⌉ := Int.ceil_pos.mpr h1
  have h3 : (a - 360 - 180) / 360 = (a - 180) / 360 - 1 := by ring
  have h4 : ⌈(a - 360 - 180) / 360⌉ = ⌈(a - 180) / 360⌉ - 1 := by
    rw [h3, Int.ceil_sub_one]
  omega

theorem wrapUpFuel_exists (a : ℝ) :
    ∃ n, wrapUpFuel n a = some (wrapUp a) := by
  by_cases h : a < -180
  · obtain ⟨n, hn⟩ := wrapUpFuel_exists (a + 360)
    refine ⟨n + 1, ?_⟩
    have hw : wrapUp a = wrapUp (a + 360) := by
      conv_lhs => rw [wrapUp]
      rw [if_pos h]
    rw [wrapUpFuel, if_pos h, hn, hw]
  · refine ⟨0, ?_⟩
    rw [wrapUpFuel, if_neg h, wrapUp_of_ge (le_of_not_lt h)]
termination_by (⌈(-180 - a) / 360⌉).toNat
decreasing_by
  have h1 : (0 : ℝ) < (-180 - a) / 360 := by
    apply div_pos <;> linarith
  have h2 : (0 : ℤ) < ⌈(-180 - a) / 360⌉ := Int.ceil_pos.mpr h1
  have h3 : (-180 - (a + 360)) / 360 = (-180 - a) / 360 - 1 := by
    ring
  have h4 : ⌈(-180 - (a + 360)) / 360⌉ = ⌈(-180 - a) / 360⌉ - 1 := by
    rw [h3, Int.ceil_sub_one]
  omega

/-- C10, amended: for every (finite) real input, both normalizeAngle
loops reach their exit condition within some finite number of
iterations and produce the value of normalizeAngle; on the JavaScript
value +Infinity the first loop guard angle > 180 never becomes false
(Infinity - 360 = Infinity), and on -Infinity the second loop guard
angle < -180 never becomes false, so no amount of fuel finishes those
loops; finiteness is not necessary for termination, however: on NaN
every comparison is false, so both loops are already past their guards
with zero fuel and the run terminates, returning NaN. -/
theorem normalizeAngle_terminates :
    (∀ a : ℝ, ∃ n m,
      (wrapDownFuel n a).bind (wrapUpFuel m) = some (normalizeAngle a)) ∧
    (∀ n, wrapDownFuelJS n JSNumber.posInf = none) ∧
    (∀ n, wrapUpFuelJS n JSNumber.negInf = none) ∧
    (wrapDownFuelJS 0 JSNumber.nan).bind (wrapUpFuelJS 0)
      = some JSNumber.nan := by
  refine ⟨?_, ?_, ?_, ?_⟩
  · intro a
    obtain ⟨n, hn⟩ := wrapDownFuel_exists a
    obtain ⟨m, hm⟩ := wrapUpFuel_exists (wrapDown a)
    refine ⟨n, m, ?_⟩
    rw [hn, Option.some_bind, hm, normalizeAngle]
  · intro n
    induction n with
    | zero =>
      rw [wrapDownFuelJS, if_pos (show JSNumber.posInf.gtOneEighty from trivial)]
    | succ n ih =>
      rw [wrapDownFuelJS, if_pos (show JSNumber.posInf.gtOneEighty from trivial)]
      exact ih
  · intro n
    induction n with
    | zero =>
      rw [wrapUpFuelJS, if_pos (show JSNumber.negInf.ltNegOneEighty from trivial)]
    | succ n ih =>
      rw [wrapUpFuelJS, if_pos (show JSNumber.negInf.ltNegOneEighty from trivial)]
      exact ih
  · rw [wrapDownFuelJS, if_neg (show ¬JSNumber.nan.gtOneEighty from fun h => h),
      Option.some_bind, wrapUpFuelJS,
      if_neg (show ¬JSNumber.nan.ltNegOneEighty from fun h => h)]

/-- C10 counterexample: NaN is a non-finite JavaScript number on which
both normalizeAngle loops nevertheless terminate at once: NaN > 180 and
NaN < -180 are both false, so each loop exits with zero iterations and
the value NaN is returned; termination therefore does not hold only for
finite inputs. -/
theorem wrapLoopsJS_nan_terminates :
    wrapDownFuelJS 0 JSNumber.nan = some JSNumber.nan ∧
    wrapUpFuelJS 0 JSNumber.nan = some JSNumber.nan := by
  constructor
  · rw [wrapDownFuelJS, if_neg (show ¬JSNumber.nan.gtOneEighty from fun h => h)]
  · rw [wrapUpFuelJS, if_neg (show ¬JSNumber.nan.ltNegOneEighty from fun h => h)]

theorem atan2_le_pi (y x : ℝ) : atan2 y x ≤ Real.pi := by
  have hpi := Real.pi_pos
  rw [atan2]
  split_ifs with h1 h2 h3 h4 h5
  · linarith [Real.arctan_lt_pi_div_two (y / x)]
  · have hyx : y / x ≤ 0 := div_nonpos_of_nonneg_of_nonpos h3 h2.le
    have : Real.arctan (y / x) ≤ Real.arctan 0 :=
      Real.arctan_strictMono.monotone hyx
    rw [Real.arctan_zero] at this
    linarith
  · linarith [Real.arctan_lt_pi_div_two (y / x)]
  · linarith
  · linarith
  · linarith

theorem neg_pi_lt_atan2 (y x : ℝ) : -Real.pi < atan2 y x := by
  have hpi := Real.pi_pos
  rw [atan2]
  split_ifs with h1 h2 h3 h4 h5
  · linarith [Real.neg_pi_div_two_lt_arctan (y / x)]
  · linarith [Real.neg_pi_div_two_lt_arctan (y / x)]
  · have hyx : 0 < y / x := div_pos_of_neg_of_neg (lt_of_not_le h3) h2
    have : Real.arctan 0 < Real.arctan (y / x) := Real.arctan_strictMono hyx
    rw [Real.arctan_zero] at this
    linarith
  · linarith
  · linarith
  · linarith

theorem azimuthDeg_nonneg (n : Vec3) : 0 ≤ azimuthDeg n := by
  have hpi := Real.pi_pos
  have hlo := neg_pi_lt_atan2 n.x n.y
  have hd : -180 < atan2 n.x n.y * (180 / Real.pi) := by
    have := mul_lt_mul_of_pos_right hlo (by positivity : 0 < 180 / Real.pi)
    calc (-180 : ℝ) = -Real.pi * (180 / Real.pi) := by
          field_simp
          ring
      _ < atan2 n.x n.y * (180 / Real.pi) := this
  rw [azimuthDeg]
  split_ifs with h
  · linarith
  · linarith [not_lt.mp h]

theorem azimuthDeg_lt_360 (n : Vec3) : azimuthDeg n < 360 := by
  have hpi := Real.pi_pos
  have hhi := atan2_le_pi n.x n.y
  have hd : atan2 n.x n.y * (180 / Real.pi) ≤ 180 := by
    have := mul_le_mul_of_nonneg_right hhi (by positivity : (0:ℝ) ≤ 180 / Real.pi)
    calc atan2 n.x n.y * (180 / Real.pi) ≤ Real.pi * (180 / Real.pi) := this
      _ = 180 := by field_simp
  rw [azimuthDeg]
  split_ifs with h
  · linarith
  · linarith

theorem zenithVal_mem (n : Vec3) :
    0 ≤ Real.arccos |n.z| * (180 / Real.pi) ∧
    Real.arccos |n.z| * (180 / Real.pi) ≤ 90 := by
  have hpi := Real.pi_pos
  constructor
  · have := Real.arccos_nonneg |n.z|
    positivity
  · have harc : Real.arccos |n.z| ≤ Real.pi / 2 :=
      Real.arccos_le_pi_div_two.mpr (abs_nonneg n.z)
    calc Real.arccos |n.z| * (180 / Real.pi)
        ≤ Real.pi / 2 * (180 / Real.pi) :=
          mul_le_mul_of_nonneg_right harc (by positivity)
      _ = 90 := by field_simp; ring

theorem zenithDeg_of_le {n : Vec3} (h : |n.z| ≤ 1) :
    zenithDeg n = some (Real.arccos |n.z| * (180 / Real.pi)) := by
  rw [zenithDeg, jsAcos, if_pos ⟨by linarith [abs_nonneg n.z], h⟩]
  rfl

theorem zenithDeg_of_gt {n : Vec3} (h : 1 < |n.z|) : zenithDeg n = none := by
  rw [zenithDeg, jsAcos, if_neg]
  · rfl
  · rintro ⟨-, h2⟩
    linarith

theorem round2_nonneg {v : ℝ} (h : 0 ≤ v) : 0 ≤ round2 v := by
  rw [round2, jsRound]
  have hfl : (0 : ℤ) ≤ ⌊v * 100 + 1 / 2⌋ := by
    rw [Int.le_floor]
    push_cast
    linarith
  have hcast : (0 : ℝ) ≤ (⌊v * 100 + 1 / 2⌋ : ℤ) := by exact_mod_cast hfl
  exact div_nonneg hcast (by norm_num)

theorem round2_le {v c : ℝ} (h : v ≤ c) : round2 v ≤ round2 c := by
  rw [round2, round2, jsRound, jsRound]
  have hfl : ⌊v * 100 + 1 / 2⌋ ≤ ⌊c * 100 + 1 / 2⌋ :=
    Int.floor_le_floor (by linarith)
  have hcast : ((⌊v * 100 + 1 / 2⌋ : ℤ) : ℝ) ≤ ((⌊c * 100 + 1 / 2⌋ : ℤ) : ℝ) := by
    exact_mod_cast hfl
  exact (div_le_div_iff_of_pos_right (by norm_num)).mpr hcast

theorem round2_intCast (k : ℤ) : round2 (k : ℝ) = k := by
  rw [round2, jsRound]
  have hfl : ⌊(k : ℝ) * 100 + 1 / 2⌋ = k * 100 := by
    rw [Int.floor_eq_iff]
    push_cast
    constructor <;> linarith
  rw [hfl]
  push_cast
  field_simp

theorem azimuthDeg_east : azimuthDeg { x := 1, y := 0, z := 0 } = 90 := by
  have hpi := Real.pi_pos
  have hat : atan2 (1 : ℝ) 0 = Real.pi / 2 := by
    rw [atan2]
    norm_num
  have h90 : Real.pi / 2 * (180 / Real.pi) = 90 := by
    field_simp
    ring
  simp only [azimuthDeg]
  rw [hat, h90]
  norm_num

theorem azimuthDeg_north : azimuthDeg { x := 0, y := 1, z := 0 } = 0 := by
  have hat : atan2 (0 : ℝ) 1 = 0 := by
    rw [atan2]
    norm_num [Real.arctan_zero]
  simp only [azimuthDeg]
  rw [hat]
  norm_num

theorem azimuthDeg_west : azimuthDeg { x := -1, y := 0, z := 0 } = 270 := by
  have hpi := Real.pi_pos
  have hat : atan2 (-1 : ℝ) 0 = -(Real.pi / 2) := by
    rw [atan2]
    norm_num
  have h90 : -(Real.pi / 2) * (180 / Real.pi) = -90 := by
    field_simp
    ring
  simp only [azimuthDeg]
  rw [hat, h90]
  norm_num

theorem zenithDeg_up : zenithDeg { x := 0, y := 0, z := 1 } = some 0 := by
  rw [zenithDeg_of_le (by norm_num)]
  norm_num [Real.arccos_one]

/-- C5, amended: the zenith is NaN exactly when the normal has |z| > 1
(Math.acos is then out of domain); when |z| <= 1 the zenith is arccos
of the absolute z in degrees and lies in [0, 90] before and after
rounding; the azimuth before rounding is atan2(x, y) in degrees shifted
by 360 if negative and lies in [0, 360); after rounding to 2 decimals
(half away from zero on these nonnegative values) the azimuth lies in
[0, 360], where the right endpoint 360 is attainable; and the stated
examples hold: normal (1,0,0) gives azimuth 90, (0,1,0) gives 0,
(-1,0,0) gives 270, and (0,0,1) gives zenith 0. -/
theorem calculateLeafOrientation_spec (n m w : Vec3)
    (hm : |m.z| ≤ 1) (hw : 1 < |w.z|) :
    zenithDeg m = some (Real.arccos |m.z| * (180 / Real.pi)) ∧
    0 ≤ Real.arccos |m.z| * (180 / Real.pi) ∧
    Real.arccos |m.z| * (180 / Real.pi) ≤ 90 ∧
    (calculateLeafOrientation m).zenith
      = some (round2 (Real.arccos |m.z| * (180 / Real.pi))) ∧
    0 ≤ round2 (Real.arccos |m.z| * (180 / Real.pi)) ∧
    round2 (Real.arccos |m.z| * (180 / Real.pi)) ≤ 90 ∧
    (calculateLeafOrientation w).zenith = none ∧
    0 ≤ azimuthDeg n ∧ azimuthDeg n < 360 ∧
    0 ≤ (calculateLeafOrientation n).azimuth ∧
    (calculateLeafOrientation n).azimuth ≤ 360 ∧
    (calculateLeafOrientation { x := 1, y := 0, z := 0 }).azimuth = 90 ∧
    (calculateLeafOrientation { x := 0, y := 1, z := 0 }).azimuth = 0 ∧
    (calculateLeafOrientation { x := -1, y := 0, z := 0 }).azimuth = 270 ∧
    (calculateLeafOrientation { x := 0, y := 0, z := 1 }).zenith = some 0 := by
  have h90 : round2 (90 : ℝ) = 90 := by
    have := round2_intCast 90
    norm_num at this
    exact this
  have h270 : round2 (270 : ℝ) = 270 := by
    have := round2_intCast 270
    norm_num at this
    exact this
  have h0 : round2 (0 : ℝ) = 0 := by
    have := round2_intCast 0
    norm_num at this
    exact this
  have h360 : round2 (360 : ℝ) = 360 := by
    have := round2_intCast 360
    norm_num at this
    exact this
  refine ⟨zenithDeg_of_le hm, (zenithVal_mem m).1, (zenithVal_mem m).2, ?_,
    round2_nonneg (zenithVal_mem m).1,
    (round2_le (zenithVal_mem m).2).trans (le_of_eq h90), ?_,
    azimuthDeg_nonneg n, azimuthDeg_lt_360 n, ?_, ?_, ?_, ?_, ?_, ?_⟩
  · show (zenithDeg m).map round2 = _
    rw [zenithDeg_of_le hm]
    rfl
  · show (zenithDeg w).map round2 = none
    rw [zenithDeg_of_gt hw]
    rfl
  · exact round2_nonneg (azimuthDeg_nonneg n)
  · exact (round2_le (azimuthDeg_lt_360 n).le).trans (le_of_eq h360)
  · show round2 (azimuthDeg { x := 1, y := 0, z := 0 }) = 90
    rw [azimuthDeg_east, h90]
  · show round2 (azimuthDeg { x := 0, y := 1, z := 0 }) = 0
    rw [azimuthDeg_north, h0]
  · show round2 (azimuthDeg { x := -1, y := 0, z := 0 }) = 270
    rw [azimuthDeg_west, h270]
  · show (zenithDeg { x := 0, y := 0, z := 1 }).map round2 = some 0
    rw [zenithDeg_up]
    show some (round2 0) = some 0
    rw [h0]

/-- C5 witness at m = (0,0,1), whose zenith is in Math.acos range, and
w = (0,0,2), whose zenith is NaN. -/
theorem calculateLeafOrientation_spec_witness :
    (calculateLeafOrientation { x := 0, y := 0, z := 2 }).zenith = none := by
  have h := calculateLeafOrientation_spec { x := 3, y := 4, z := 5 }
    { x := 0, y := 0, z := 1 } { x := 0, y := 0, z := 2 }
    (by norm_num) (by norm_num)
  exact h.2.2.2.2.2.2.1

/-- C5 counterexample: at the normal (-1/1000000, 1, 0) the azimuth
before rounding is just below 360, and rounding to 2 decimals pushes
the published azimuth to exactly 360, so the returned azimuth is not
always strictly less than 360. -/
theorem calculateLeafOrientation_az_360 :
    ¬ ((calculateLeafOrientation
        { x := -(1 / 1000000), y := 1, z := 0 }).azimuth < 360) := by
  have hpi := Real.pi_pos
  have hpi3 := Real.pi_gt_three
  set A := Real.arctan (1 / 1000000) with hA
  have hApos : 0 < A := by
    have := Real.arctan_strictMono (show (0 : ℝ) < 1 / 1000000 by norm_num)
    rwa [Real.arctan_zero] at this
  have hAlt : A < 1 / 1000000 := by
    have h2 : (1 / 1000000 : ℝ) < Real.pi / 2 := by linarith
    have h3 : (-(Real.pi / 2) : ℝ) < 1 / 1000000 := by linarith
    calc A < Real.arctan (Real.tan (1 / 1000000)) :=
          Real.arctan_strictMono (Real.lt_tan (by norm_num) h2)
      _ = 1 / 1000000 := Real.arctan_tan h3 h2
  have hat : atan2 (-(1 / 1000000) : ℝ) 1 = -A := by
    rw [atan2, if_pos (show (0 : ℝ) < 1 by norm_num)]
    norm_num [hA, Real.arctan_neg]
  have hdivlt : (18000 : ℝ) / Real.pi < 6000 := by
    rw [div_lt_iff₀ hpi]
    nlinarith
  have hdivpos : (0 : ℝ) < 180 / Real.pi := by positivity
  have hc1 : 0 < A * (180 / Real.pi) * 100 := by positivity
  have hc2 : A * (180 / Real.pi) * 100 < 1 / 2 := by
    have hr : A * (180 / Real.pi) * 100 = A * (18000 / Real.pi) := by ring
    rw [hr]
    calc A * (18000 / Real.pi) < (1 / 1000000) * 6000 := by
          apply mul_lt_mul hAlt hdivlt.le (by positivity) (by norm_num)
      _ < 1 / 2 := by norm_num
  have haz : azimuthDeg { x := -(1 / 1000000), y := 1, z := 0 }
      = -A * (180 / Real.pi) + 360 := by
    simp only [azimuthDeg]
    rw [hat, if_pos]
    nlinarith
  have hfloor : ⌊(-A * (180 / Real.pi) + 360) * 100 + 1 / 2⌋ = 36000 := by
    rw [Int.floor_eq_iff]
    push_cast
    constructor <;> nlinarith
  have hround : (calculateLeafOrientation
      { x := -(1 / 1000000), y := 1, z := 0 }).azimuth = 360 := by
    show round2 (azimuthDeg { x := -(1 / 1000000), y := 1, z := 0 }) = 360
    rw [haz, round2, jsRound, hfloor]
    norm_num
  rw [hround]
  norm_num

end Leafangler
